import Mathlib

/-!
Shallow embedding of the tracker-event reconstruction subsystem of
`sc2reader/events/tracker.py` (repository sc2minshare), together with
theorems settling the specification claims about it.

Conventions of the embedding:
* Python integers are unbounded, so numeric record fields are `Nat`
  (they arrive from the unsigned bit-packed primitive decoder) and
  stat-vector slots are `Int` (negative values occur in the wild and are
  clamped).
* The two floating-point quantities (`second` and the `food_*` stats)
  are embedded exactly; see the doc comments on `TrackerEvent.ofFrames`
  and `PlayerStatsEvent.ofRecord`.
* Fields that only ever hold externally-resolved registry objects
  (`self.unit`, `self.killing_player`, `unit_upkeeper`, ...) are set to
  `None` by every constructor and mutated only by the external resolver
  pass; they carry no decode-time information and are omitted from the
  structures.
* A constructor that can raise at decode time is embedded as an
  `Except PyError` value.
-/

namespace SC2

/-- `clamp = functools.partial(max, 0)` (tracker.py line 7): floor-clamp a
stat slot to zero. -/
def clamp (v : Int) : Int := max 0 v

/-- Failure modes of an event constructor.  The source raises the Python
built-in `IndexError` via an out-of-range list subscript
(`self.items[i + 1]` in `UnitPositionsEvent.__init__`).
`malformedRecord` is modelled from the spec: the spec's error taxonomy
names a `MalformedRecord` error class, but no such class appears anywhere
in the source; the constructor is included only so that statements about
it can be made. -/
inductive PyError where
  | indexError
  | malformedRecord
deriving DecidableEq

/-- State set by `TrackerEvent.__init__` (tracker.py lines 15-21). -/
structure TrackerEvent where
  frame : Nat
  second : Nat

/-- `TrackerEvent.__init__(self, frames)`:
`self.frame = frames % 2**32` and `self.second = int(self.frame / 22.4)`.
Because `frame < 2^32`, the f64 quotient `frame / 22.4` has the same
integer part as the exact rational `frame * 5 / 112` (the relative
rounding error of the f64 computation is ~1e-16, far smaller than the
distance from any attainable quotient to the nearest integer boundary),
so the Python truncation `int(...)` is embedded as the natural-number
division `frame * 5 / 112` (note `22.4 = 112 / 5`). -/
def TrackerEvent.ofFrames (frames : Nat) : TrackerEvent :=
  let frame := frames % 2 ^ 32
  { frame := frame, second := frame * 5 / 112 }

/-- `UnitBornEvent` fields set by its constructor
(tracker.py lines 291-335). -/
structure UnitBornEvent where
  toTrackerEvent : TrackerEvent
  unit_id_index : Nat
  unit_id_recycle : Nat
  unit_id : Nat
  unit_type_name : String
  control_pid : Nat
  upkeep_pid : Nat
  x : Nat
  y : Nat
  location : Nat × Nat

/-- `UnitBornEvent.__init__(self, frames, data, build)` with
`data = (index, recycle, type_name_bytes, control_pid, upkeep_pid, x, y)`.
The utf-8 decode of `data[2]` happens upstream of this embedding, so the
type name is taken as a `String`.  The source stores `x = data[5]`,
`y = data[6]`, `location = (x, y)` and then, when `build < 27950`,
rescales all three by 4; the constructor below stores the final values. -/
def UnitBornEvent.ofRecord (frames : Nat) (d0 d1 : Nat) (d2 : String)
    (d3 d4 d5 d6 : Nat) (build : Nat) : UnitBornEvent :=
  let x := if build < 27950 then d5 * 4 else d5
  let y := if build < 27950 then d6 * 4 else d6
  { toTrackerEvent := TrackerEvent.ofFrames frames
    unit_id_index := d0
    unit_id_recycle := d1
    unit_id := d0 <<< 18 ||| d1
    unit_type_name := d2
    control_pid := d3
    upkeep_pid := d4
    x := x
    y := y
    location := (x, y) }

/-- `UnitBornEvent.pid` property (tracker.py lines 341-343): the
controlling player's id, computed from the stored field. -/
def UnitBornEvent.pid (e : UnitBornEvent) : Nat := e.control_pid

/-- `UnitDiedEvent` fields set by its constructor
(tracker.py lines 369-430).  The three `killing_unit_*` fields are
initialized to `None` and only filled for `build >= 27950`. -/
structure UnitDiedEvent where
  toTrackerEvent : TrackerEvent
  unit_id_index : Nat
  unit_id_recycle : Nat
  unit_id : Nat
  killer_pid : Nat
  killing_player_id : Nat
  x : Nat
  y : Nat
  location : Nat × Nat
  killing_unit_index : Option Nat
  killing_unit_recycle : Option Nat
  killing_unit_id : Option Nat

/-- `UnitDiedEvent.__init__(self, frames, data, build)` with
`data = (index, recycle, killer_pid, x, y)` for `build < 27950` and
`data = (index, recycle, killer_pid, x, y, killing_unit_index,
killing_unit_recycle)` for `build >= 27950`; `d5`/`d6` stand for the two
extra slots and are never read in the short-record case.  The guard
`if self.killing_unit_index:` is Python truthiness, i.e. `d5 ≠ 0`. -/
def UnitDiedEvent.ofRecord (frames : Nat) (d0 d1 d2 d3 d4 : Nat)
    (d5 d6 : Nat) (build : Nat) : UnitDiedEvent :=
  let x := if build < 27950 then d3 * 4 else d3
  let y := if build < 27950 then d4 * 4 else d4
  { toTrackerEvent := TrackerEvent.ofFrames frames
    unit_id_index := d0
    unit_id_recycle := d1
    unit_id := d0 <<< 18 ||| d1
    killer_pid := d2
    killing_player_id := d2
    x := x
    y := y
    location := (x, y)
    killing_unit_index := if build < 27950 then none else some d5
    killing_unit_recycle := if build < 27950 then none else some d6
    killing_unit_id :=
      if build < 27950 then none
      else if d5 ≠ 0 then some (d5 <<< 18 ||| d6) else none }

/-- `UnitOwnerChangeEvent` fields set by its constructor
(tracker.py lines 464-489). -/
structure UnitOwnerChangeEvent where
  toTrackerEvent : TrackerEvent
  unit_id_index : Nat
  unit_id_recycle : Nat
  unit_id : Nat
  control_pid : Nat
  upkeep_pid : Nat

/-- `UnitOwnerChangeEvent.__init__(self, frames, data, build)` with
`data = (index, recycle, control_pid, upkeep_pid)`. -/
def UnitOwnerChangeEvent.ofRecord (frames : Nat) (d0 d1 d2 d3 : Nat)
    (_build : Nat) : UnitOwnerChangeEvent :=
  { toTrackerEvent := TrackerEvent.ofFrames frames
    unit_id_index := d0
    unit_id_recycle := d1
    unit_id := d0 <<< 18 ||| d1
    control_pid := d2
    upkeep_pid := d3 }

/-- `UnitTypeChangeEvent` fields set by its constructor
(tracker.py lines 504-520). -/
structure UnitTypeChangeEvent where
  toTrackerEvent : TrackerEvent
  unit_id_index : Nat
  unit_id_recycle : Nat
  unit_id : Nat
  unit_type_name : String

/-- `UnitTypeChangeEvent.__init__(self, frames, data, build)` with
`data = (index, recycle, type_name_bytes)`. -/
def UnitTypeChangeEvent.ofRecord (frames : Nat) (d0 d1 : Nat) (d2 : String)
    (_build : Nat) : UnitTypeChangeEvent :=
  { toTrackerEvent := TrackerEvent.ofFrames frames
    unit_id_index := d0
    unit_id_recycle := d1
    unit_id := d0 <<< 18 ||| d1
    unit_type_name := d2 }

/-- `UnitInitEvent` fields set by its constructor
(tracker.py lines 565-609); same record shape as `UnitBornEvent`. -/
structure UnitInitEvent where
  toTrackerEvent : TrackerEvent
  unit_id_index : Nat
  unit_id_recycle : Nat
  unit_id : Nat
  unit_type_name : String
  control_pid : Nat
  upkeep_pid : Nat
  x : Nat
  y : Nat
  location : Nat × Nat

/-- `UnitInitEvent.__init__(self, frames, data, build)` with
`data = (index, recycle, type_name_bytes, control_pid, upkeep_pid, x, y)`;
coordinate handling is identical to `UnitBornEvent.ofRecord`. -/
def UnitInitEvent.ofRecord (frames : Nat) (d0 d1 : Nat) (d2 : String)
    (d3 d4 d5 d6 : Nat) (build : Nat) : UnitInitEvent :=
  let x := if build < 27950 then d5 * 4 else d5
  let y := if build < 27950 then d6 * 4 else d6
  { toTrackerEvent := TrackerEvent.ofFrames frames
    unit_id_index := d0
    unit_id_recycle := d1
    unit_id := d0 <<< 18 ||| d1
    unit_type_name := d2
    control_pid := d3
    upkeep_pid := d4
    x := x
    y := y
    location := (x, y) }

/-- `UnitInitEvent.pid` property (tracker.py lines 615-617): the upkeep
payer's id, computed from the stored field. -/
def UnitInitEvent.pid (e : UnitInitEvent) : Nat := e.upkeep_pid

/-- `UnitDoneEvent` fields set by its constructor
(tracker.py lines 636-649). -/
structure UnitDoneEvent where
  toTrackerEvent : TrackerEvent
  unit_id_index : Nat
  unit_id_recycle : Nat
  unit_id : Nat

/-- `UnitDoneEvent.__init__(self, frames, data, build)` with
`data = (index, recycle)`. -/
def UnitDoneEvent.ofRecord (frames : Nat) (d0 d1 : Nat)
    (_build : Nat) : UnitDoneEvent :=
  { toTrackerEvent := TrackerEvent.ofFrames frames
    unit_id_index := d0
    unit_id_recycle := d1
    unit_id := d0 <<< 18 ||| d1 }

/-- The coordinate rescaling of the `build < 27950` case, shared by the
unit events and the position decoder (`x = x * 4` under
`if build < 27950`). -/
def scaleCoord (build : Nat) (c : Int) : Int :=
  if build < 27950 then c * 4 else c

/-- The loop of `UnitPositionsEvent.__init__` (tracker.py lines 694-702):
`for i in range(0, len(self.items), 3)` walks the flat sequence in
stride-3 windows, keeping a running `unit_index` incremented by
`self.items[i]` and appending `(unit_index, (x, y))`.  When the sequence
length is not a multiple of 3, the final window's subscript
`self.items[i + 1]` or `self.items[i + 2]` is out of range and Python
raises `IndexError`. -/
def positionsLoop (build : Nat) : Int → List Int →
    Except PyError (List (Int × Int × Int))
  | _, [] => Except.ok []
  | _, [_] => Except.error PyError.indexError
  | _, [_, _] => Except.error PyError.indexError
  | u, d :: x :: y :: rest =>
    match positionsLoop build (u + d) rest with
    | Except.ok ps =>
      Except.ok ((u + d, scaleCoord build x, scaleCoord build y) :: ps)
    | Except.error e => Except.error e

/-- `UnitPositionsEvent` fields set by its constructor
(tracker.py lines 677-702). -/
structure UnitPositionsEvent where
  toTrackerEvent : TrackerEvent
  first_unit_index : Int
  items : List Int
  positions : List (Int × Int × Int)

/-- `UnitPositionsEvent.__init__(self, frames, data, build)` with
`data = (first_unit_index, items)`; the decoded `positions` list is built
by `positionsLoop`, and a raised `IndexError` aborts construction. -/
def UnitPositionsEvent.ofRecord (frames : Nat) (d0 : Int) (d1 : List Int)
    (build : Nat) : Except PyError UnitPositionsEvent :=
  match positionsLoop build d0 d1 with
  | Except.ok ps =>
    Except.ok
      { toTrackerEvent := TrackerEvent.ofFrames frames
        first_unit_index := d0
        items := d1
        positions := ps }
  | Except.error e => Except.error e

/-- `UnitPositionsEvent.player` property (tracker.py lines 705-708):
always the sentinel `-1`. -/
def UnitPositionsEvent.player (_ : UnitPositionsEvent) : Int := -1

/-- `UnitPositionsEvent.pid` property (tracker.py lines 710-712):
always the sentinel `-1`. -/
def UnitPositionsEvent.pid (_ : UnitPositionsEvent) : Int := -1

/-- `PlayerStatsEvent` fields set by its constructor
(tracker.py lines 67-272).  `food_used` and `food_made` are f64 values
`clamp(stats[i]) / 4096.0` in the source; division of an integer by the
power of two 4096 is exact in f64 for all magnitudes occurring here, so
they are embedded as exact rationals. -/
structure PlayerStatsEvent where
  toTrackerEvent : TrackerEvent
  pid : Nat
  stats : List Int
  minerals_current : Int
  vespene_current : Int
  minerals_collection_rate : Int
  vespene_collection_rate : Int
  workers_active_count : Int
  minerals_used_in_progress_army : Int
  minerals_used_in_progress_economy : Int
  minerals_used_in_progress_technology : Int
  minerals_used_in_progress : Int
  vespene_used_in_progress_army : Int
  vespene_used_in_progress_economy : Int
  vespene_used_in_progress_technology : Int
  vespene_used_in_progress : Int
  resources_used_in_progress : Int
  minerals_used_current_army : Int
  minerals_used_current_economy : Int
  minerals_used_current_technology : Int
  minerals_used_current : Int
  vespene_used_current_army : Int
  vespene_used_current_economy : Int
  vespene_used_current_technology : Int
  vespene_used_current : Int
  resources_used_current : Int
  minerals_lost_army : Int
  minerals_lost_economy : Int
  minerals_lost_technology : Int
  minerals_lost : Int
  vespene_lost_army : Int
  vespene_lost_economy : Int
  vespene_lost_technology : Int
  vespene_lost : Int
  resources_lost : Int
  minerals_killed_army : Int
  minerals_killed_economy : Int
  minerals_killed_technology : Int
  minerals_killed : Int
  vespene_killed_army : Int
  vespene_killed_economy : Int
  vespene_killed_technology : Int
  vespene_killed : Int
  resources_killed : Int
  food_used : ℚ
  food_made : ℚ
  minerals_used_active_forces : Int
  vespene_used_active_forces : Int
  ff_minerals_lost_army : Option Int
  ff_minerals_lost_economy : Option Int
  ff_minerals_lost_technology : Option Int
  ff_vespene_lost_army : Option Int
  ff_vespene_lost_economy : Option Int
  ff_vespene_lost_technology : Option Int

/-- `PlayerStatsEvent.__init__(self, frames, data, build)` with
`data = (pid, stats)` where `stats` is the 39-slot raw stat vector
(the input contract fixes the record shape, so slot access is embedded
with `List.getD`).  Every slot is clamped before use; category totals sum
their three clamped constituents; the six friendly-fire fields are
`None` for `build < 26490` and clamped slots 33-38 otherwise. -/
def PlayerStatsEvent.ofRecord (frames : Nat) (d0 : Nat) (d1 : List Int)
    (build : Nat) : PlayerStatsEvent :=
  let s := fun i => d1.getD i 0
  let minerals_used_in_progress_army := clamp (s 5)
  let minerals_used_in_progress_economy := clamp (s 6)
  let minerals_used_in_progress_technology := clamp (s 7)
  let minerals_used_in_progress := minerals_used_in_progress_army
    + minerals_used_in_progress_economy + minerals_used_in_progress_technology
  let vespene_used_in_progress_army := clamp (s 8)
  let vespene_used_in_progress_economy := clamp (s 9)
  let vespene_used_in_progress_technology := clamp (s 10)
  let vespene_used_in_progress := vespene_used_in_progress_army
    + vespene_used_in_progress_economy + vespene_used_in_progress_technology
  let minerals_used_current_army := clamp (s 11)
  let minerals_used_current_economy := clamp (s 12)
  let minerals_used_current_technology := clamp (s 13)
  let minerals_used_current := minerals_used_current_army
    + minerals_used_current_economy + minerals_used_current_technology
  let vespene_used_current_army := clamp (s 14)
  let vespene_used_current_economy := clamp (s 15)
  let vespene_used_current_technology := clamp (s 16)
  let vespene_used_current := vespene_used_current_army
    + vespene_used_current_economy + vespene_used_current_technology
  let minerals_lost_army := clamp (s 17)
  let minerals_lost_economy := clamp (s 18)
  let minerals_lost_technology := clamp (s 19)
  let minerals_lost := minerals_lost_army + minerals_lost_economy
    + minerals_lost_technology
  let vespene_lost_army := clamp (s 20)
  let vespene_lost_economy := clamp (s 21)
  let vespene_lost_technology := clamp (s 22)
  let vespene_lost := vespene_lost_army + vespene_lost_economy
    + vespene_lost_technology
  let minerals_killed_army := clamp (s 23)
  let minerals_killed_economy := clamp (s 24)
  let minerals_killed_technology := clamp (s 25)
  let minerals_killed := minerals_killed_army + minerals_killed_economy
    + minerals_killed_technology
  let vespene_killed_army := clamp (s 26)
  let vespene_killed_economy := clamp (s 27)
  let vespene_killed_technology := clamp (s 28)
  let vespene_killed := vespene_killed_army + vespene_killed_economy
    + vespene_killed_technology
  { toTrackerEvent := TrackerEvent.ofFrames frames
    pid := d0
    stats := d1
    minerals_current := clamp (s 0)
    vespene_current := clamp (s 1)
    minerals_collection_rate := clamp (s 2)
    vespene_collection_rate := clamp (s 3)
    workers_active_count := clamp (s 4)
    minerals_used_in_progress_army := minerals_used_in_progress_army
    minerals_used_in_progress_economy := minerals_used_in_progress_economy
    minerals_used_in_progress_technology := minerals_used_in_progress_technology
    minerals_used_in_progress := minerals_used_in_progress
    vespene_used_in_progress_army := vespene_used_in_progress_army
    vespene_used_in_progress_economy := vespene_used_in_progress_economy
    vespene_used_in_progress_technology := vespene_used_in_progress_technology
    vespene_used_in_progress := vespene_used_in_progress
    resources_used_in_progress := minerals_used_in_progress
      + vespene_used_in_progress
    minerals_used_current_army := minerals_used_current_army
    minerals_used_current_economy := minerals_used_current_economy
    minerals_used_current_technology := minerals_used_current_technology
    minerals_used_current := minerals_used_current
    vespene_used_current_army := vespene_used_current_army
    vespene_used_current_economy := vespene_used_current_economy
    vespene_used_current_technology := vespene_used_current_technology
    vespene_used_current := vespene_used_current
    resources_used_current := minerals_used_current + vespene_used_current
    minerals_lost_army := minerals_lost_army
    minerals_lost_economy := minerals_lost_economy
    minerals_lost_technology := minerals_lost_technology
    minerals_lost := minerals_lost
    vespene_lost_army := vespene_lost_army
    vespene_lost_economy := vespene_lost_economy
    vespene_lost_technology := vespene_lost_technology
    vespene_lost := vespene_lost
    resources_lost := minerals_lost + vespene_lost
    minerals_killed_army := minerals_killed_army
    minerals_killed_economy := minerals_killed_economy
    minerals_killed_technology := minerals_killed_technology
    minerals_killed := minerals_killed
    vespene_killed_army := vespene_killed_army
    vespene_killed_economy := vespene_killed_economy
    vespene_killed_technology := vespene_killed_technology
    vespene_killed := vespene_killed
    resources_killed := minerals_killed + vespene_killed
    food_used := (clamp (s 29) : ℚ) / 4096
    food_made := (clamp (s 30) : ℚ) / 4096
    minerals_used_active_forces := clamp (s 31)
    vespene_used_active_forces := clamp (s 32)
    ff_minerals_lost_army :=
      if build ≥ 26490 then some (clamp (s 33)) else none
    ff_minerals_lost_economy :=
      if build ≥ 26490 then some (clamp (s 34)) else none
    ff_minerals_lost_technology :=
      if build ≥ 26490 then some (clamp (s 35)) else none
    ff_vespene_lost_army :=
      if build ≥ 26490 then some (clamp (s 36)) else none
    ff_vespene_lost_economy :=
      if build ≥ 26490 then some (clamp (s 37)) else none
    ff_vespene_lost_technology :=
      if build ≥ 26490 then some (clamp (s 38)) else none }

/-! ### Helper lemmas for the unit-identity codec -/

/-- Packing lemma: for `recycle < 2^18` the bitwise-or of the shifted index
and the recycle counter is their exact sum (the operand bit ranges are
disjoint). -/
theorem lor_pack (i r : Nat) (h : r < 2 ^ 18) :
    i <<< 18 ||| r = i * 2 ^ 18 + r := by
  apply Nat.eq_of_testBit_eq
  intro k
  rw [Nat.testBit_or, Nat.testBit_shiftLeft, Nat.mul_comm i (2 ^ 18),
    Nat.testBit_mul_pow_two_add _ h]
  by_cases hk : k < 18
  · have h2 : ¬k ≥ 18 := Nat.not_le_of_lt hk
    simp [hk, h2]
  · have hge : k ≥ 18 := Nat.le_of_not_lt hk
    have hb : r.testBit k = false :=
      Nat.testBit_lt_two_pow
        (Nat.lt_of_lt_of_le h (Nat.pow_le_pow_right (by norm_num) hge))
    simp [hk, hge, hb]

/-- First half of the codec inverse: the shift recovers the index. -/
theorem encode_shiftRight (i r : Nat) (h : r < 2 ^ 18) :
    (i <<< 18 ||| r) >>> 18 = i := by
  rw [lor_pack i r h, Nat.shiftRight_eq_div_pow]
  omega

/-- Second half of the codec inverse: the mask recovers the recycle
counter. -/
theorem encode_mask (i r : Nat) (h : r < 2 ^ 18) :
    (i <<< 18 ||| r) &&& 0x3FFFF = r := by
  have hm : (0x3FFFF : Nat) = 2 ^ 18 - 1 := by norm_num
  rw [lor_pack i r h, hm, Nat.and_pow_two_sub_one_eq_mod]
  omega

/-! ### Claim theorems -/

/-- C1: for every `index < 2^14` and `recycle < 2^18`, decoding the
composite unit id `(index << 18) | recycle` via `(id >> 18, id & 0x3FFFF)`
reproduces `(index, recycle)` exactly, for the `unit_id` computed by every
unit event constructor (born, died, init, done, owner-change,
type-change). -/
theorem unit_id_roundtrip (i r : Nat) (_hi : i < 2 ^ 14) (hr : r < 2 ^ 18)
    (frames build : Nat) (nm : String) (d2 d3 d4 d5 d6 : Nat) :
    ((UnitBornEvent.ofRecord frames i r nm d3 d4 d5 d6 build).unit_id >>> 18 = i ∧
      (UnitBornEvent.ofRecord frames i r nm d3 d4 d5 d6 build).unit_id &&& 0x3FFFF = r) ∧
    ((UnitDiedEvent.ofRecord frames i r d2 d3 d4 d5 d6 build).unit_id >>> 18 = i ∧
      (UnitDiedEvent.ofRecord frames i r d2 d3 d4 d5 d6 build).unit_id &&& 0x3FFFF = r) ∧
    ((UnitInitEvent.ofRecord frames i r nm d3 d4 d5 d6 build).unit_id >>> 18 = i ∧
      (UnitInitEvent.ofRecord frames i r nm d3 d4 d5 d6 build).unit_id &&& 0x3FFFF = r) ∧
    ((UnitDoneEvent.ofRecord frames i r build).unit_id >>> 18 = i ∧
      (UnitDoneEvent.ofRecord frames i r build).unit_id &&& 0x3FFFF = r) ∧
    ((UnitOwnerChangeEvent.ofRecord frames i r d2 d3 build).unit_id >>> 18 = i ∧
      (UnitOwnerChangeEvent.ofRecord frames i r d2 d3 build).unit_id &&& 0x3FFFF = r) ∧
    ((UnitTypeChangeEvent.ofRecord frames i r nm build).unit_id >>> 18 = i ∧
      (UnitTypeChangeEvent.ofRecord frames i r nm build).unit_id &&& 0x3FFFF = r) := by
  refine ⟨⟨?_, ?_⟩, ⟨?_, ?_⟩, ⟨?_, ?_⟩, ⟨?_, ?_⟩, ⟨?_, ?_⟩, ⟨?_, ?_⟩⟩ <;>
    first
      | exact encode_shiftRight i r hr
      | exact encode_mask i r hr

/-- Witness for C1 at `index = 5`, `recycle = 7`. -/
theorem unit_id_roundtrip_witness :
    (5 : Nat) < 2 ^ 14 ∧ (7 : Nat) < 2 ^ 18 ∧
      (UnitBornEvent.ofRecord 0 5 7 "Marine" 1 1 3 4 27950).unit_id >>> 18 = 5 ∧
      (UnitBornEvent.ofRecord 0 5 7 "Marine" 1 1 3 4 27950).unit_id &&& 0x3FFFF = 7 ∧
      (UnitDoneEvent.ofRecord 0 5 7 27950).unit_id >>> 18 = 5 :=
  ⟨by decide, by decide,
    (unit_id_roundtrip 5 7 (by decide) (by decide) 0 27950 "Marine" 2 1 1 3 4).1.1,
    (unit_id_roundtrip 5 7 (by decide) (by decide) 0 27950 "Marine" 2 1 1 3 4).1.2,
    (unit_id_roundtrip 5 7 (by decide) (by decide) 0 27950 "Marine" 2 1 1 3 4).2.2.2.1.1⟩

/-- C2: for every unit-born, unit-init and unit-died event, the stored
`x`, `y` and `location` equal four times the raw record coordinates when
`build < 27950`, and the raw coordinates unscaled when
`build >= 27950`. -/
theorem unit_event_coord_scaling (frames i r d2 d3 d4 dx dy build : Nat)
    (nm : String) :
    ((UnitBornEvent.ofRecord frames i r nm d3 d4 dx dy build).x
        = (if build < 27950 then 4 * dx else dx) ∧
      (UnitBornEvent.ofRecord frames i r nm d3 d4 dx dy build).y
        = (if build < 27950 then 4 * dy else dy) ∧
      (UnitBornEvent.ofRecord frames i r nm d3 d4 dx dy build).location
        = ((if build < 27950 then 4 * dx else dx),
            (if build < 27950 then 4 * dy else dy))) ∧
    ((UnitInitEvent.ofRecord frames i r nm d3 d4 dx dy build).x
        = (if build < 27950 then 4 * dx else dx) ∧
      (UnitInitEvent.ofRecord frames i r nm d3 d4 dx dy build).y
        = (if build < 27950 then 4 * dy else dy) ∧
      (UnitInitEvent.ofRecord frames i r nm d3 d4 dx dy build).location
        = ((if build < 27950 then 4 * dx else dx),
            (if build < 27950 then 4 * dy else dy))) ∧
    ((UnitDiedEvent.ofRecord frames i r d2 dx dy d5 d6 build).x
        = (if build < 27950 then 4 * dx else dx) ∧
      (UnitDiedEvent.ofRecord frames i r d2 dx dy d5 d6 build).y
        = (if build < 27950 then 4 * dy else dy) ∧
      (UnitDiedEvent.ofRecord frames i r d2 dx dy d5 d6 build).location
        = ((if build < 27950 then 4 * dx else dx),
            (if build < 27950 then 4 * dy else dy))) := by
  refine ⟨⟨?_, ?_, ?_⟩, ⟨?_, ?_, ?_⟩, ⟨?_, ?_, ?_⟩⟩ <;>
    simp [UnitBornEvent.ofRecord, UnitInitEvent.ofRecord,
      UnitDiedEvent.ofRecord, Nat.mul_comm]

/-- C7 counterexample: at raw frame 1 the stored `second` is the integer
0, while `frame / 22.4` as a real value is `5/112`, strictly between 0
and 1 (this holds for the f64 computation as well: the f64 nearest to
`1 / 22.4` is likewise strictly between 0 and 1, and `int()` truncates
it to 0).  So the stored field does not equal `frame / 22.4`. -/
theorem trackerEvent_second_counterexample :
    (TrackerEvent.ofFrames 1).second = 0 ∧
      ((TrackerEvent.ofFrames 1).second : ℚ)
        ≠ ((TrackerEvent.ofFrames 1).frame : ℚ) / (112 / 5) := by
  constructor
  · rfl
  · norm_num [TrackerEvent.ofFrames]

/-- C7 (amended): the stored `second` equals the integer part (floor) of
`frame / 22.4` — the source applies `int(...)` to the quotient — where
`22.4 = 112/5` exactly. -/
theorem trackerEvent_second_floor (frames : Nat) :
    (TrackerEvent.ofFrames frames).second
      = ⌊((TrackerEvent.ofFrames frames).frame : ℚ) / (112 / 5)⌋₊ := by
  have h : ((TrackerEvent.ofFrames frames).frame : ℚ) / (112 / 5)
      = (((TrackerEvent.ofFrames frames).frame * 5 : Nat) : ℚ) / ((112 : Nat) : ℚ) := by
    push_cast
    ring
  rw [h, Nat.floor_div_nat, Nat.floor_natCast]
  rfl

/-- C8: the stored frame is the raw frame value wrapped modulo `2^32`
(hence always below `2^32`); in particular a raw value of `2^32 + 7` is
stored as 7. -/
theorem trackerEvent_frame_wrap :
    (∀ frames : Nat, (TrackerEvent.ofFrames frames).frame = frames % 2 ^ 32 ∧
        (TrackerEvent.ofFrames frames).frame < 2 ^ 32) ∧
      (TrackerEvent.ofFrames (2 ^ 32 + 7)).frame = 7 := by
  refine ⟨fun frames => ⟨rfl, Nat.mod_lt _ (by norm_num)⟩, ?_⟩
  show (2 ^ 32 + 7) % 2 ^ 32 = 7
  norm_num

/-- C9: the derived `pid` accessor of a unit-born event returns the
controlling player's id and that of a unit-init event returns the upkeep
payer's id, each computed from the stored field; on events built from the
same record fields the two accessors pick out exactly the control slot
and the upkeep slot respectively. -/
theorem pid_accessors :
    (∀ e : UnitBornEvent, e.pid = e.control_pid) ∧
    (∀ e : UnitInitEvent, e.pid = e.upkeep_pid) ∧
    (∀ (frames i r cp up dx dy build : Nat) (nm : String),
      (UnitBornEvent.ofRecord frames i r nm cp up dx dy build).pid = cp ∧
        (UnitInitEvent.ofRecord frames i r nm cp up dx dy build).pid = up) :=
  ⟨fun _ => rfl, fun _ => rfl,
    fun _ _ _ _ _ _ _ _ _ => ⟨rfl, rfl⟩⟩

/-- C5: for `build < 26490` all six friendly-fire fields of a
player-stats event are the explicit unavailable state `none` (which is
distinct from the numeric value zero), and for `build >= 26490` each
equals `max(0, s)` of its raw stat slot `s` (slots 33-38). -/
theorem playerStats_ff_fields (frames d0 build : Nat) (stats : List Int) :
    ((PlayerStatsEvent.ofRecord frames d0 stats build).ff_minerals_lost_army
        = if build ≥ 26490 then some (clamp (stats.getD 33 0)) else none) ∧
    ((PlayerStatsEvent.ofRecord frames d0 stats build).ff_minerals_lost_economy
        = if build ≥ 26490 then some (clamp (stats.getD 34 0)) else none) ∧
    ((PlayerStatsEvent.ofRecord frames d0 stats build).ff_minerals_lost_technology
        = if build ≥ 26490 then some (clamp (stats.getD 35 0)) else none) ∧
    ((PlayerStatsEvent.ofRecord frames d0 stats build).ff_vespene_lost_army
        = if build ≥ 26490 then some (clamp (stats.getD 36 0)) else none) ∧
    ((PlayerStatsEvent.ofRecord frames d0 stats build).ff_vespene_lost_economy
        = if build ≥ 26490 then some (clamp (stats.getD 37 0)) else none) ∧
    ((PlayerStatsEvent.ofRecord frames d0 stats build).ff_vespene_lost_technology
        = if build ≥ 26490 then some (clamp (stats.getD 38 0)) else none) ∧
    (∀ v : Int, (none : Option Int) ≠ some v) := by
  refine ⟨rfl, rfl, rfl, rfl, rfl, rfl, fun v => by simp⟩

/-- C6: for `build < 27950` the killing-unit fields of a unit-died event
are all absent (`none`); for `build >= 27950` the killer index and
recycle are taken from the record, and `killing_unit_id` is the encoded
composite id exactly when the killer-index field is nonzero, staying
absent when it is zero. -/
theorem unitDied_killer_fields (frames i r d2 dx dy d5 d6 build : Nat) :
    ((UnitDiedEvent.ofRecord frames i r d2 dx dy d5 d6 build).killing_unit_index
        = if build < 27950 then none else some d5) ∧
    ((UnitDiedEvent.ofRecord frames i r d2 dx dy d5 d6 build).killing_unit_recycle
        = if build < 27950 then none else some d6) ∧
    ((UnitDiedEvent.ofRecord frames i r d2 dx dy d5 d6 build).killing_unit_id
        = if build < 27950 then none
          else if d5 ≠ 0 then some (d5 <<< 18 ||| d6) else none) :=
  ⟨rfl, rfl, rfl⟩

/-- Out-of-range subscript behaviour of the positions loop: whenever the
flat sequence length is not a multiple of 3, the loop's final window
reads past the end of the list and the construction fails with
`IndexError`. -/
theorem positionsLoop_error (build : Nat) :
    ∀ (first : Int) (items : List Int), items.length % 3 ≠ 0 →
      positionsLoop build first items = Except.error PyError.indexError
  | _, [], h => absurd rfl h
  | _, [_], _ => rfl
  | _, [_, _], _ => rfl
  | first, d :: x :: y :: rest, h => by
    have h3 : rest.length % 3 ≠ 0 := by
      simp only [List.length_cons] at h
      omega
    simp [positionsLoop, positionsLoop_error build (first + d) rest h3]

/-- Three-step cons lemma for `List.getD`, matching the stride-3 window
walk of the positions loop. -/
theorem getD_cons3 (a b c : Int) (l : List Int) (n : Nat) :
    (a :: b :: c :: l).getD (n + 3) 0 = l.getD n 0 := rfl

/-- Full characterization of the positions loop on well-formed input: a
flat sequence of length `3 k` decodes to exactly `k` entries, in input
order, the `j`-th entry's unit index being the start index plus the
cumulative sum of the first elements of windows `0..j` and its
coordinates the scaled second and third elements of window `j`. -/
theorem positionsLoop_spec (build : Nat) :
    ∀ (k : Nat) (items : List Int) (first : Int), items.length = 3 * k →
      ∃ ps, positionsLoop build first items = Except.ok ps ∧ ps.length = k ∧
        ∀ j, j < k → ps.getD j (0, 0, 0)
          = (first + (((List.range (j + 1)).map
                fun t => items.getD (3 * t) 0).sum),
             scaleCoord build (items.getD (3 * j + 1) 0),
             scaleCoord build (items.getD (3 * j + 2) 0)) := by
  intro k
  induction k with
  | zero =>
    intro items first h
    have hnil : items = [] := List.length_eq_zero.mp (by omega)
    subst hnil
    exact ⟨[], rfl, rfl, fun j hj => absurd hj (Nat.not_lt_zero j)⟩
  | succ k ih =>
    intro items first h
    obtain _ | ⟨d, _ | ⟨x, _ | ⟨y, rest⟩⟩⟩ := items
    · simp only [List.length_nil] at h
      omega
    · simp only [List.length_cons, List.length_nil] at h
      omega
    · simp only [List.length_cons, List.length_nil] at h
      omega
    · simp only [List.length_cons] at h
      have hr : rest.length = 3 * k := by omega
      obtain ⟨ps, hps, hlen, hget⟩ := ih rest (first + d) hr
      refine ⟨(first + d, scaleCoord build x, scaleCoord build y) :: ps,
        ?_, ?_, ?_⟩
      · simp [positionsLoop, hps]
      · simp [hlen]
      · intro j hj
        cases j with
        | zero =>
          simp [List.range_succ]
        | succ j =>
          have hj2 : j < k := Nat.lt_of_succ_lt_succ hj
          rw [List.getD_cons_succ, hget j hj2]
          have hsum : ((List.range (j + 1 + 1)).map
                fun t => (d :: x :: y :: rest).getD (3 * t) 0).sum
              = d + ((List.range (j + 1)).map
                fun t => rest.getD (3 * t) 0).sum := by
            rw [List.range_succ_eq_map]
            simp only [List.map_cons, List.sum_cons, List.map_map]
            have hcongr : ∀ t ∈ List.range (j + 1),
                ((fun t => (d :: x :: y :: rest).getD (3 * t) 0) ∘ Nat.succ) t
                  = rest.getD (3 * t) 0 := by
              intro t _
              show (d :: x :: y :: rest).getD (3 * (t + 1)) 0 = rest.getD (3 * t) 0
              rw [show 3 * (t + 1) = 3 * t + 3 from by ring, getD_cons3]
            rw [List.map_congr_left hcongr]
            rfl
          simp only [Prod.mk.injEq]
          refine ⟨?_, ?_, ?_⟩
          · rw [hsum]
            ring
          · rw [show 3 * (j + 1) + 1 = (3 * j + 1) + 3 from by ring, getD_cons3]
          · rw [show 3 * (j + 1) + 2 = (3 * j + 2) + 3 from by ring, getD_cons3]

/-- C3: a `UnitPositionsEvent` built from `first_unit_index` and a flat
items sequence of length `3 k` has exactly `k` positions, in input order,
the `j`-th having unit index `first_unit_index` plus the cumulative sum
of the first elements of windows `0..j` and coordinates the window's
second and third elements, each scaled by 4 exactly when
`build < 27950`; in particular `first_unit_index = 100` with items
`[5, 10, 20, 3, 15, 25]` yields `[(105, (10, 20)), (108, (15, 25))]` at
`build = 27950` and `[(105, (40, 80)), (108, (60, 100))]` at
`build = 27949`. -/
theorem unitPositions_decode (build k frames : Nat) (first : Int)
    (items : List Int) (h : items.length = 3 * k) :
    (∃ e, UnitPositionsEvent.ofRecord frames first items build
        = Except.ok e ∧
      e.positions.length = k ∧
      ∀ j, j < k → e.positions.getD j (0, 0, 0)
        = (first + (((List.range (j + 1)).map
              fun t => items.getD (3 * t) 0).sum),
           scaleCoord build (items.getD (3 * j + 1) 0),
           scaleCoord build (items.getD (3 * j + 2) 0))) ∧
    positionsLoop 27950 100 [5, 10, 20, 3, 15, 25]
      = Except.ok [(105, 10, 20), (108, 15, 25)] ∧
    positionsLoop 27949 100 [5, 10, 20, 3, 15, 25]
      = Except.ok [(105, 40, 80), (108, 60, 100)] := by
  refine ⟨?_, rfl, rfl⟩
  obtain ⟨ps, hps, hlen, hget⟩ := positionsLoop_spec build k items first h
  refine ⟨{ toTrackerEvent := TrackerEvent.ofFrames frames
            first_unit_index := first
            items := items
            positions := ps }, ?_, hlen, hget⟩
  simp [UnitPositionsEvent.ofRecord, hps]

/-- Witness for C3 at the spec's concrete example. -/
theorem unitPositions_decode_witness :
    ([5, 10, 20, 3, 15, 25] : List Int).length = 3 * 2 ∧
      (∃ e, UnitPositionsEvent.ofRecord 0 100 [5, 10, 20, 3, 15, 25] 27950
          = Except.ok e ∧
        e.positions.length = 2 ∧
        ∀ j, j < 2 → e.positions.getD j (0, 0, 0)
          = (100 + (((List.range (j + 1)).map
                fun t => ([5, 10, 20, 3, 15, 25] : List Int).getD (3 * t) 0).sum),
             scaleCoord 27950
               (([5, 10, 20, 3, 15, 25] : List Int).getD (3 * j + 1) 0),
             scaleCoord 27950
               (([5, 10, 20, 3, 15, 25] : List Int).getD (3 * j + 2) 0))) :=
  ⟨rfl, (unitPositions_decode 27950 2 0 100 [5, 10, 20, 3, 15, 25] rfl).1⟩

/-- C4 counterexample: a one-element items sequence (length not a
multiple of 3) makes construction fail with the Python `IndexError`,
not with a `MalformedRecord` error — no such error class exists in the
source. -/
theorem unitPositions_malformed_counterexample :
    ([5] : List Int).length % 3 ≠ 0 ∧
      UnitPositionsEvent.ofRecord 0 100 [5] 27950
        = Except.error PyError.indexError ∧
      PyError.indexError ≠ PyError.malformedRecord :=
  ⟨by decide, rfl, by decide⟩

/-- C4 (amended): for every items sequence whose length is not a multiple
of 3, constructing a `UnitPositionsEvent` fails with an index-out-of-range
error (`IndexError`) from the stride-3 window subscripts; the source
defines no `MalformedRecord` error. -/
theorem unitPositions_malformed (frames : Nat) (first : Int)
    (items : List Int) (build : Nat) (h : items.length % 3 ≠ 0) :
    UnitPositionsEvent.ofRecord frames first items build
      = Except.error PyError.indexError := by
  unfold UnitPositionsEvent.ofRecord
  rw [positionsLoop_error build first items h]

/-- Witness for C4 (amended) at `items = [5, 10]`. -/
theorem unitPositions_malformed_witness :
    ([5, 10] : List Int).length % 3 ≠ 0 ∧
      UnitPositionsEvent.ofRecord 0 100 [5, 10] 27950
        = Except.error PyError.indexError :=
  ⟨by decide, unitPositions_malformed 0 100 [5, 10] 27950 (by decide)⟩

/-- C10: the derived `player` and `pid` accessors of a unit-positions
event always return the sentinel `-1`, regardless of the event's
contents. -/
theorem unitPositions_sentinel :
    ∀ e : UnitPositionsEvent, e.player = -1 ∧ e.pid = -1 :=
  fun _ => ⟨rfl, rfl⟩

end SC2
